import Mathlib

/-!
Verification development for the voice-message transcription pipeline of
`voice_handler.py` (AI interviewer bot).  The Python source is shallowly
embedded: pure helpers become Lean functions, the retry loop becomes a
fuel-indexed recursion, the orchestrator's filesystem effects become explicit
disk-state passing, and Python floats become rationals.
-/

/-! ## String helpers (Python `str.lower`, `in`, `str.split`) -/

/-- ASCII lower-casing of a character, as `str.lower` does on ASCII input. -/
def lowerChar (c : Char) : Char :=
  if 'A' ≤ c ∧ c ≤ 'Z' then Char.ofNat (c.toNat + 32) else c

/-- Lower-case a string character-wise (model of Python `str.lower()`). -/
def lowerStr (s : String) : String := ⟨s.data.map lowerChar⟩

/-- Whether `needle` occurs as a contiguous sublist of `hay`
(model of Python `needle in hay` on strings). -/
def containsSubList (needle : List Char) : List Char → Bool
  | [] => needle.isEmpty
  | c :: rest => needle.isPrefixOf (c :: rest) || containsSubList needle rest

/-- Substring test on strings (Python `needle in hay`). -/
def containsSub (needle hay : String) : Bool :=
  containsSubList needle.data hay.data

/-- Worker for `pySplit`: accumulates the current word (reversed). -/
def splitWsAux : List Char → List Char → List (List Char)
  | [], acc => if acc.isEmpty then [] else [acc.reverse]
  | c :: rest, acc =>
    if c.isWhitespace then
      if acc.isEmpty then splitWsAux rest [] else acc.reverse :: splitWsAux rest []
    else splitWsAux rest (c :: acc)

/-- Model of Python `text.split()`: split on whitespace, dropping empty pieces. -/
def pySplit (s : String) : List (List Char) := splitWsAux s.data []

/-- Model of `len(text.split())`, the word count used by `_determine_quality`. -/
def wordCount (s : String) : Nat := (pySplit s).length

/-! ## Quality model (`VoiceQuality`, `_determine_quality`) -/

/-- Enum `VoiceQuality` of `voice_handler.py`. -/
inductive VoiceQuality where
  | high
  | medium
  | low
  | failed
deriving DecidableEq, Repr

/-- Rank of a quality tier: `failed < low < medium < high`. -/
def qualityRank : VoiceQuality → Nat
  | .failed => 0
  | .low => 1
  | .medium => 2
  | .high => 3

/-- Structure `VoiceProcessingConfig` of `voice_handler.py` (the fields the pipeline
claims depend on, with the source's default values). -/
structure VoiceProcessingConfig where
  assemblyaiApiKey : String
  maxFileSizeMb : ℚ := 25
  minDurationSeconds : ℚ := 1/2
  maxDurationSeconds : ℚ := 600
  confidenceThreshold : ℚ := 3/5
  defaultLanguage : String := "en"
  retryAttempts : Nat := 3
  retryDelaySeconds : ℚ := 2
  maxRetryDelay : ℚ := 60

/-- The configuration with every optional field left at its source default. -/
def defaultConfig : VoiceProcessingConfig := { assemblyaiApiKey := "test_key" }

/-- Model of `AssemblyAIClient._determine_quality` (voice_handler.py lines 824-845):
failed if text falsy or confidence exactly 0; low under the threshold;
low when duration > 10 and fewer than 3 words; high when confidence ≥ 0.85
with ≥ 3 words; otherwise medium. -/
def determineQuality (cfg : VoiceProcessingConfig) (confidence : ℚ) (text : String)
    (duration : ℚ) : VoiceQuality :=
  if text = "" ∨ confidence = 0 then VoiceQuality.failed
  else if confidence < cfg.confidenceThreshold then VoiceQuality.low
  else if 10 < duration ∧ wordCount text < 3 then VoiceQuality.low
  else if 85/100 ≤ confidence ∧ 3 ≤ wordCount text then VoiceQuality.high
  else VoiceQuality.medium

theorem wordCount_empty : wordCount "" = 0 := rfl

theorem text_ne_empty_of_wordCount (text : String) (h : 3 ≤ wordCount text) :
    text ≠ "" := by
  intro he
  subst he
  simp [wordCount_empty] at h

/-- Under the side conditions of the monotonicity claim (nonempty text with at
least 3 words, duration at most 10s, nonzero confidence), the quality is a pure
threshold function of the confidence. -/
theorem determineQuality_char (cfg : VoiceProcessingConfig) (c : ℚ) (text : String)
    (d : ℚ) (hwc : 3 ≤ wordCount text) (hc : c ≠ 0) :
    determineQuality cfg c text d =
      if c < cfg.confidenceThreshold then VoiceQuality.low
      else if c < 85/100 then VoiceQuality.medium
      else VoiceQuality.high := by
  have htext := text_ne_empty_of_wordCount text hwc
  unfold determineQuality
  rw [if_neg (by simp [htext, hc])]
  by_cases h1 : c < cfg.confidenceThreshold
  · rw [if_pos h1, if_pos h1]
  · rw [if_neg h1, if_neg h1]
    rw [if_neg (by intro h; exact absurd hwc (by omega))]
    by_cases h2 : c < 85/100
    · rw [if_neg (by intro h; linarith [h.1]), if_pos h2]
    · rw [if_pos ⟨le_of_not_lt h2, hwc⟩, if_neg h2]

/-! ## Transcription results (`VoiceTranscriptionResult`) -/

/-- Dataclass `VoiceTranscriptionResult` (the fields the claims depend on;
the optional enrichment-metadata dictionary is not modelled). -/
structure VoiceTranscriptionResult where
  text : String
  confidence : ℚ
  quality : VoiceQuality
  language : Option String
  durationSeconds : ℚ
  processingTimeSeconds : ℚ
  fileSizeBytes : ℚ
  format : String
  error : Option String := none
deriving DecidableEq, Repr

/-! ## Retry machinery (`_transcribe_with_retries`, `_is_retryable_error`) -/

/-- Outcome of one service invocation (one `transcriber.transcribe` submit plus
poll-to-terminal-state unit), as seen by the retry loop: either a completed
transcript value or a raised exception carrying a message. -/
inductive TranscriptStep (τ : Type) where
  | success (t : τ)
  | failure (msg : String)

/-- Model of `AssemblyAIClient._is_retryable_error`: an error is retryable unless its
lower-cased message contains one of the non-retryable indicator substrings. -/
def isRetryableError (msg : String) : Bool :=
  let m := lowerStr msg
  !(["api key", "unauthorized", "authentication",
     "file size", "too large", "unsupported format",
     "invalid audio", "bad request", "forbidden"].any (fun ind => containsSub ind m))

/-- Result of the retry loop: a completed transcript, a raised error message, or
the `raise last_error` with `last_error` still `None` (which in Python raises
`TypeError: exceptions must derive from BaseException`). -/
inductive RetryOutcome (τ : Type) where
  | ok (t : τ)
  | raised (e : String)
  | raisedNone

/-- One `for attempt in range(retry_attempts)` iteration chain of
`_transcribe_with_retries`, fuel-indexed by the remaining iterations
(`fuel = retryAttempts - attempt`).  Returns the loop outcome together with the
number of service invocations performed. -/
def retryLoop {τ : Type} (service : Nat → TranscriptStep τ) (n : Nat) :
    Nat → Nat → Option String → Nat → RetryOutcome τ × Nat
  | 0, _, lastError, calls =>
    match lastError with
    | none => (RetryOutcome.raisedNone, calls)
    | some e => (RetryOutcome.raised e, calls)
  | fuel + 1, attempt, _, calls =>
    match service attempt with
    | TranscriptStep.success t => (RetryOutcome.ok t, calls + 1)
    | TranscriptStep.failure e =>
      if attempt < n - 1 && !(isRetryableError e) then
        (RetryOutcome.raised e, calls + 1)
      else
        retryLoop service n fuel (attempt + 1) (some e) (calls + 1)

/-- Model of `AssemblyAIClient._transcribe_with_retries` (voice_handler.py lines
568-621), abstracted over the service behaviour at each attempt index. -/
def transcribeWithRetries {τ : Type} (service : Nat → TranscriptStep τ)
    (retryAttempts : Nat) : RetryOutcome τ × Nat :=
  retryLoop service retryAttempts retryAttempts 0 none 0

/-- Backoff computation of `_transcribe_with_retries` (lines 612-614): the
event-loop clock fraction `loop.time() % 1` is passed in as `frac`. -/
def backoffWait (retryDelaySeconds maxRetryDelay : ℚ) (attempt : Nat) (frac : ℚ) : ℚ :=
  let baseDelay := retryDelaySeconds * 2 ^ attempt
  let jitter := baseDelay * (1/10) * (1/2 - frac)
  min (baseDelay + jitter) maxRetryDelay

/-! ## Validation and error categorization (`transcribe_audio` internals) -/

/-- Model of `AssemblyAIClient._validate_audio_file` (lines 488-503): file existence,
size cap, minimum duration, maximum duration, checked in that order. -/
def validateAudioFile (cfg : VoiceProcessingConfig) (fileExists : Bool)
    (sizeBytes duration : ℚ) : Except String Unit :=
  let fileSizeMb := sizeBytes / (1024 * 1024)
  if !fileExists then
    Except.error "Audio file not found"
  else if cfg.maxFileSizeMb < fileSizeMb then
    Except.error ("File too large: " ++ toString fileSizeMb ++ "MB (max: "
      ++ toString cfg.maxFileSizeMb ++ "MB)")
  else if duration < cfg.minDurationSeconds then
    Except.error ("Audio too short: " ++ toString duration ++ "s (min: "
      ++ toString cfg.minDurationSeconds ++ "s)")
  else if cfg.maxDurationSeconds < duration then
    Except.error ("Audio too long: " ++ toString duration ++ "s (max: "
      ++ toString cfg.maxDurationSeconds ++ "s)")
  else
    Except.ok ()

/-- Error categorization of `transcribe_audio`'s exception handler
(lines 432-444), by substring tests on the lower-cased message. -/
def categorizeError (msg : String) : String :=
  let m := lowerStr msg
  if containsSub "api key" m || containsSub "unauthorized" m then "authentication"
  else if containsSub "timeout" m then "timeout"
  else if containsSub "file size" m || containsSub "too large" m then "file_size"
  else if containsSub "format" m || containsSub "unsupported" m then "format"
  else if containsSub "network" m || containsSub "connection" m then "network"
  else "unknown"

/-- The fields of a completed AssemblyAI transcript that
`_process_transcript_result` reads (`transcript.text`, `transcript.confidence`,
`transcript.language_code`; the first two are optional in the SDK and are
defaulted with `or ""` / `or 0.0`). -/
structure TranscriptData where
  text : Option String
  confidence : Option ℚ
  languageCode : Option String

/-- Model of `AssemblyAIClient._process_transcript_result` (lines 722-822), restricted
to the claim-relevant fields: the success-path result, with `error = None`. -/
def processTranscriptResult (cfg : VoiceProcessingConfig) (t : TranscriptData)
    (duration sizeBytes : ℚ) (fmt : String) (ptime : ℚ) : VoiceTranscriptionResult :=
  let text := t.text.getD ""
  let confidence := t.confidence.getD 0
  { text := text
    confidence := confidence
    quality := determineQuality cfg confidence text duration
    language := some (t.languageCode.getD cfg.defaultLanguage)
    durationSeconds := duration
    processingTimeSeconds := ptime
    fileSizeBytes := sizeBytes
    format := fmt
    error := none }

/-- The failure result built by `transcribe_audio`'s exception handler
(lines 455-466): empty text, zero confidence, FAILED quality, and an error
string of the form `"<category>: <message>"`. -/
def failedTranscriptionResult (e : String) (duration sizeBytes : ℚ)
    (fmt : String) (ptime : ℚ) : VoiceTranscriptionResult :=
  { text := ""
    confidence := 0
    quality := VoiceQuality.failed
    language := none
    durationSeconds := duration
    processingTimeSeconds := ptime
    fileSizeBytes := sizeBytes
    format := fmt
    error := some (categorizeError e ++ ": " ++ e) }

/-- Message of the `TypeError` Python raises for `raise None`. -/
def raiseNoneMessage : String := "exceptions must derive from BaseException"

/-- Model of `AssemblyAIClient.transcribe_audio` (lines 396-466): validate, then run the
retry loop; any exception (validation failure, surfaced retry error, or the
`raise None` TypeError) is caught and converted to a FAILED result.  Returns
the result together with the number of transcription-service invocations. -/
def transcribeAudio (cfg : VoiceProcessingConfig) (fileExists : Bool)
    (sizeBytes duration : ℚ) (fmt : String)
    (service : Nat → TranscriptStep TranscriptData) (ptime : ℚ) :
    VoiceTranscriptionResult × Nat :=
  match validateAudioFile cfg fileExists sizeBytes duration with
  | Except.error e => (failedTranscriptionResult e duration sizeBytes fmt ptime, 0)
  | Except.ok _ =>
    match transcribeWithRetries service cfg.retryAttempts with
    | (RetryOutcome.ok t, n) => (processTranscriptResult cfg t duration sizeBytes fmt ptime, n)
    | (RetryOutcome.raised e, n) => (failedTranscriptionResult e duration sizeBytes fmt ptime, n)
    | (RetryOutcome.raisedNone, n) =>
      (failedTranscriptionResult raiseNoneMessage duration sizeBytes fmt ptime, n)

/-! ## Word search (`search_words_in_transcript`, `_basic_word_search`) -/

/-- A match object returned by the AssemblyAI native `word_search` call, with
the attributes read by `search_words_in_transcript` (`match.end` is `stop`
here since `end` is reserved in Lean). -/
structure WordSearchMatch where
  text : String
  start : Nat
  stop : Nat
  confidence : ℚ
  count : Nat

/-- A field value in a result-dictionary entry. -/
inductive FieldValue where
  | str (s : String)
  | num (n : Nat)
  | rat (q : ℚ)
deriving DecidableEq, Repr

/-- One per-occurrence dictionary, as an association list of field names. -/
abbrev MatchEntry := List (String × FieldValue)

/-- Model of `AssemblyAIClient.search_words_in_transcript` (lines 667-697), native path:
per word, the service matches whose lower-cased text equals the word, each
rendered as a dict with keys `text`, `start`, `end`, `confidence`, `count`. -/
def searchWordsInTranscript (serviceMatches : List WordSearchMatch)
    (words : List String) : List (String × List MatchEntry) :=
  words.map fun word =>
    (word,
      (serviceMatches.filter (fun m => lowerStr m.text == lowerStr word)).map fun m =>
        [("text", FieldValue.str m.text), ("start", FieldValue.num m.start),
         ("end", FieldValue.num m.stop), ("confidence", FieldValue.rat m.confidence),
         ("count", FieldValue.num m.count)])

/-- A word character for the `\b` boundary of the fallback regex
(`[a-zA-Z0-9_]`). -/
def isWordChar (c : Char) : Bool := c.isAlphanum || c == '_'

/-- Whether position `i` starts a whole-word occurrence of `word` in `text`:
`word` matches at `i` and both neighbours fail `isWordChar` (the `\b...\b`
anchors of `_basic_word_search`'s pattern for word-character words). -/
def matchesWholeWordAt (text word : List Char) (i : Nat) : Bool :=
  word.isPrefixOf (text.drop i)
  && (i == 0 || !isWordChar (text.getD (i - 1) ' '))
  && (i + word.length == text.length || !isWordChar (text.getD (i + word.length) ' '))

/-- All whole-word occurrences of `word` in `text` as (start, end) character
offsets, in left-to-right order (model of
`re.finditer(r'\b' + re.escape(word) + r'\b', text)`). -/
def wholeWordMatches (text word : List Char) : List (Nat × Nat) :=
  (List.range (text.length + 1)).filterMap fun i =>
    if !word.isEmpty && decide (i + word.length ≤ text.length)
        && matchesWholeWordAt text word i then
      some (i, i + word.length)
    else none

/-- Model of `AssemblyAIClient._basic_word_search` (lines 699-720), the local fallback:
case-insensitive whole-word scan, each occurrence rendered as a dict with keys
`text`, `start_char`, `end_char`, `confidence`, `count`, `match_index`. -/
def basicWordSearch (text : String) (words : List String) :
    List (String × List MatchEntry) :=
  let textLower := (lowerStr text).data
  words.map fun word =>
    let ms := wholeWordMatches textLower (lowerStr word).data
    (word,
      ms.enum.map fun p =>
        [("text", FieldValue.str word), ("start_char", FieldValue.num p.2.1),
         ("end_char", FieldValue.num p.2.2), ("confidence", FieldValue.rat 1),
         ("count", FieldValue.num ms.length), ("match_index", FieldValue.num p.1)])

/-! ## Audio normalization (`AudioProcessor`) -/

/-- A pydub `AudioSegment`, restricted to the properties the optimization reads
and writes.  `set_channels`/`set_frame_rate` update these fields; amplitude
normalization (`normalize`) and `high_pass_filter` alter samples only, leaving
channel count, frame rate and duration unchanged. -/
structure PydubAudioSegment where
  channels : Nat
  frameRate : Nat
  durationMs : ℚ
deriving DecidableEq, Repr

/-- pydub `set_channels`. -/
def setChannels (a : PydubAudioSegment) (n : Nat) : PydubAudioSegment :=
  { a with channels := n }

/-- pydub `set_frame_rate`. -/
def setFrameRate (a : PydubAudioSegment) (r : Nat) : PydubAudioSegment :=
  { a with frameRate := r }

/-- pydub `normalize`: amplitude only; channels/rate/duration preserved. -/
def normalizeSegment (a : PydubAudioSegment) : PydubAudioSegment := a

/-- pydub `high_pass_filter`: samples only; channels/rate/duration preserved. -/
def highPassFilterSegment (a : PydubAudioSegment) (_cutoffHz : Nat) : PydubAudioSegment := a

/-- Model of `AudioProcessor._optimize_audio` (lines 324-342): downmix to mono when
multi-channel, resample to 16kHz when at another rate, then normalize and
high-pass filter at 100Hz. -/
def optimizeAudio (a : PydubAudioSegment) : PydubAudioSegment :=
  let a1 := if 1 < a.channels then setChannels a 1 else a
  let a2 := if a1.frameRate ≠ 16000 then setFrameRate a1 16000 else a1
  highPassFilterSegment (normalizeSegment a2) 100

/-- Model of `AudioProcessor.convert_and_optimize` (lines 271-322), with the codec
decode step supplied as `decoded` (`none` models `CouldntDecodeError`, which
the source rethrows as `ValueError("Unsupported audio format: ...")`). -/
def convertAndOptimize (decoded : Option PydubAudioSegment) :
    Except String (PydubAudioSegment × ℚ) :=
  match decoded with
  | none => Except.error "Unsupported audio format"
  | some audio =>
    let optimized := optimizeAudio audio
    Except.ok (optimized, optimized.durationMs / 1000)

/-! ## Orchestrator (`VoiceMessageHandler.process_voice_message`) -/

/-- The filesystem, as the set of paths currently present (a list with
multiplicity; membership is what matters). -/
abbrev Disk := List String

/-- Creating (or overwriting) a file at `p`. -/
def addFile (p : String) (d : Disk) : Disk := p :: d

/-- Model of `Path.unlink`: removing every entry at `p`. -/
def removeFile (p : String) (d : Disk) : Disk := d.filter (fun q => q ≠ p)

/-- Model of `VoiceMessageHandler._cleanup_temp_files` (lines 950-959): unlink each
registered temp file that exists. -/
def cleanupTempFiles (temp : List String) (d : Disk) : Disk :=
  temp.foldl (fun acc p => removeFile p acc) d

/-- Model of `AudioProcessor._mime_to_extension` (lines 259-269). -/
def mimeToExtension (mimeType : String) : String :=
  if mimeType = "audio/ogg" then "ogg"
  else if mimeType = "audio/mpeg" then "mp3"
  else if mimeType = "audio/mp4" then "m4a"
  else if mimeType = "audio/wav" then "wav"
  else if mimeType = "audio/webm" then "webm"
  else if mimeType = "audio/opus" then "opus"
  else "ogg"

/-- Behaviour of `AudioProcessor.download_voice_message` in one run: success,
or a raised exception after a partial file was written at the target path, or a
raised exception with nothing written. -/
inductive DownloadOutcome where
  | ok
  | failKeep (msg : String)
  | failClean (msg : String)
deriving DecidableEq, Repr

/-- Metadata produced by a successful `convert_and_optimize` call. -/
structure ConvertMeta where
  duration : ℚ
  sizeBytes : ℚ
deriving DecidableEq, Repr

/-- Behaviour of `convert_and_optimize` in one run. -/
inductive ConvertOutcome where
  | ok (meta : ConvertMeta)
  | fail (msg : String)

/-- One inbound voice message plus the induced behaviour of each effectful
stage of its pipeline run. -/
structure Scenario where
  userId : Nat
  mime : String
  voiceDuration : ℚ
  voiceFileSize : ℚ
  download : DownloadOutcome
  convert : ConvertOutcome
  service : Nat → TranscriptStep TranscriptData
  processingTime : ℚ

/-- The unique download target path `voice_{user_id}_{hash}.{ext}` (the
timestamp/md5 hash component is abbreviated to a fixed tag; only distinctness
of the stem from other runs matters, never its exact value). -/
def rawStem (s : Scenario) : String := "voice_" ++ toString s.userId ++ "_h"

/-- The raw downloaded file's path. -/
def rawPath (s : Scenario) : String := rawStem s ++ "." ++ mimeToExtension s.mime

/-- Path from `input_path.with_suffix('.wav')`, the normalized file's path. -/
def wavPath (s : Scenario) : String := rawStem s ++ ".wav"

/-- Counters of `VoiceMessageHandler.stats` (lines 856-862). -/
structure Stats where
  messagesProcessed : Nat := 0
  successfulTranscriptions : Nat := 0
  failedTranscriptions : Nat := 0
  totalAudioDuration : ℚ := 0
  totalProcessingTime : ℚ := 0
deriving DecidableEq, Repr

/-- Statistics update after `transcribe_audio` returned (lines 908-923). -/
def recordResult (st : Stats) (r : VoiceTranscriptionResult) : Stats :=
  let st1 := { st with
    totalAudioDuration := st.totalAudioDuration + r.durationSeconds
    totalProcessingTime := st.totalProcessingTime + r.processingTimeSeconds }
  if r.quality ≠ VoiceQuality.failed then
    { st1 with successfulTranscriptions := st1.successfulTranscriptions + 1 }
  else
    { st1 with failedTranscriptions := st1.failedTranscriptions + 1 }

/-- The failure result built by `process_voice_message`'s exception handler
(lines 934-944). -/
def exceptionResult (e : String) (voiceDuration voiceFileSize : ℚ)
    (mime : String) : VoiceTranscriptionResult :=
  { text := ""
    confidence := 0
    quality := VoiceQuality.failed
    language := none
    durationSeconds := voiceDuration
    processingTimeSeconds := 0
    fileSizeBytes := voiceFileSize
    format := mime
    error := some e }

/-- The orchestration after a successful download: `temp` already holds the
downloaded path and `disk` reflects the written file (lines 893-925 plus the
shared exception handler and `finally` cleanup). -/
def afterDownload (cfg : VoiceProcessingConfig) (s : Scenario) (disk : Disk)
    (temp : List String) (st : Stats) : VoiceTranscriptionResult × Disk × Stats :=
  match s.convert with
  | ConvertOutcome.fail e =>
    (exceptionResult e s.voiceDuration s.voiceFileSize s.mime,
     cleanupTempFiles temp disk,
     { st with failedTranscriptions := st.failedTranscriptions + 1 })
  | ConvertOutcome.ok meta =>
    let disk2 := addFile (wavPath s) disk
    let temp2 := if wavPath s ≠ rawPath s then temp ++ [wavPath s] else temp
    let out := transcribeAudio cfg (disk2.contains (wavPath s)) meta.sizeBytes
      meta.duration "wav" s.service s.processingTime
    (out.1, cleanupTempFiles temp2 disk2, recordResult st out.1)

/-- Model of `VoiceMessageHandler.process_voice_message` (lines 864-948): bump the
message counter; download (registering the file in `temp_files` only after the
download call returns); convert (registering the normalized file when its path
differs); transcribe; update statistics; on any raised exception build a FAILED
result and bump the failure counter; in all cases unlink the registered temp
files before returning.  Returns (result, final disk, final statistics). -/
def processVoiceMessage (cfg : VoiceProcessingConfig) (s : Scenario)
    (disk0 : Disk) (st0 : Stats) : VoiceTranscriptionResult × Disk × Stats :=
  let st1 := { st0 with messagesProcessed := st0.messagesProcessed + 1 }
  match s.download with
  | DownloadOutcome.failClean e =>
    (exceptionResult e s.voiceDuration s.voiceFileSize s.mime,
     cleanupTempFiles [] disk0,
     { st1 with failedTranscriptions := st1.failedTranscriptions + 1 })
  | DownloadOutcome.failKeep e =>
    (exceptionResult e s.voiceDuration s.voiceFileSize s.mime,
     cleanupTempFiles [] (addFile (rawPath s) disk0),
     { st1 with failedTranscriptions := st1.failedTranscriptions + 1 })
  | DownloadOutcome.ok =>
    afterDownload cfg s (addFile (rawPath s) disk0) [rawPath s] st1

/-! ## The pipeline's result constructors, for the quality/error invariant -/

/-- The ways the pipeline produces a `VoiceTranscriptionResult`: the
success path of `_process_transcript_result`, the exception handler of
`transcribe_audio`, and the exception handler of `process_voice_message`. -/
inductive ProducedResult (cfg : VoiceProcessingConfig) : VoiceTranscriptionResult → Prop
  | ofProcess (t : TranscriptData) (duration sizeBytes : ℚ) (fmt : String) (ptime : ℚ) :
      ProducedResult cfg (processTranscriptResult cfg t duration sizeBytes fmt ptime)
  | ofTranscribeCatch (e : String) (duration sizeBytes : ℚ) (fmt : String) (ptime : ℚ) :
      ProducedResult cfg (failedTranscriptionResult e duration sizeBytes fmt ptime)
  | ofOrchestratorCatch (e : String) (voiceDuration voiceFileSize : ℚ) (mime : String) :
      ProducedResult cfg (exceptionResult e voiceDuration voiceFileSize mime)

/-! ## Helper lemmas -/

theorem containsSubList_nil_needle : ∀ l : List Char, containsSubList [] l = true
  | [] => rfl
  | _ :: _ => rfl

theorem isPrefixOf_append_mono {n : List Char} (m : List Char) :
    ∀ {l : List Char}, n.isPrefixOf l = true → n.isPrefixOf (l ++ m) = true := by
  induction n with
  | nil =>
    intro l _
    cases l ++ m <;> rfl
  | cons c t ih =>
    intro l h
    cases l with
    | nil => simp [List.isPrefixOf] at h
    | cons d u =>
      rw [List.cons_append]
      rw [show ((c :: t).isPrefixOf (d :: u)) = ((c == d) && t.isPrefixOf u) from rfl] at h
      rw [show ((c :: t).isPrefixOf (d :: (u ++ m))) = ((c == d) && t.isPrefixOf (u ++ m)) from rfl]
      simp only [Bool.and_eq_true] at h ⊢
      exact ⟨h.1, ih h.2⟩

theorem containsSubList_append {n : List Char} :
    ∀ {l : List Char} (m : List Char),
      containsSubList n l = true → containsSubList n (l ++ m) = true := by
  intro l
  induction l with
  | nil =>
    intro m h
    have hn : n = [] := by
      cases n with
      | nil => rfl
      | cons c t => simp [containsSubList, List.isEmpty] at h
    subst hn
    exact containsSubList_nil_needle m
  | cons c rest ih =>
    intro m h
    simp only [containsSubList, Bool.or_eq_true] at h ⊢
    rcases h with hp | hc
    · exact Or.inl (isPrefixOf_append_mono m hp)
    · exact Or.inr (ih m hc)

theorem containsSub_append (n a b : String) (h : containsSub n a = true) :
    containsSub n (a ++ b) = true := by
  unfold containsSub at h ⊢
  rw [String.data_append]
  exact containsSubList_append _ h

theorem cleanupTempFiles_nil (d : Disk) : cleanupTempFiles [] d = d := rfl

theorem cleanupTempFiles_cons (t : String) (ts : List String) (d : Disk) :
    cleanupTempFiles (t :: ts) d = cleanupTempFiles ts (removeFile t d) := rfl

theorem mem_of_mem_removeFile {p q : String} {d : Disk} (h : p ∈ removeFile q d) :
    p ∈ d :=
  (List.mem_filter.mp h).1

theorem not_mem_removeFile_self (p : String) (d : Disk) : p ∉ removeFile p d := by
  intro h
  have := (List.mem_filter.mp h).2
  simp at this

theorem mem_of_mem_cleanup {p : String} :
    ∀ (temp : List String) (d : Disk), p ∈ cleanupTempFiles temp d → p ∈ d
  | [], _, h => h
  | _ :: ts, _, h => mem_of_mem_removeFile (mem_of_mem_cleanup ts _ h)

theorem not_mem_cleanup_of_not_mem {p : String} (temp : List String) (d : Disk)
    (h : p ∉ d) : p ∉ cleanupTempFiles temp d :=
  fun hmem => h (mem_of_mem_cleanup temp d hmem)

theorem not_mem_cleanup_of_mem_temp {p : String} :
    ∀ (temp : List String) (d : Disk), p ∈ temp → p ∉ cleanupTempFiles temp d := by
  intro temp
  induction temp with
  | nil => intro d h; cases h
  | cons t ts ih =>
    intro d h
    rcases List.mem_cons.mp h with rfl | hts
    · exact not_mem_cleanup_of_not_mem ts _ (not_mem_removeFile_self p d)
    · exact ih _ hts

theorem contains_cons_self (p : String) (d : Disk) : (p :: d).contains p = true := by
  simp

theorem retryLoop_fuel_succ {τ : Type} (service : Nat → TranscriptStep τ)
    (n fuel attempt : Nat) (lastError : Option String) (calls : Nat) :
    retryLoop service n (fuel + 1) attempt lastError calls =
      match service attempt with
      | TranscriptStep.success t => (RetryOutcome.ok t, calls + 1)
      | TranscriptStep.failure e =>
        if attempt < n - 1 && !(isRetryableError e) then
          (RetryOutcome.raised e, calls + 1)
        else
          retryLoop service n fuel (attempt + 1) (some e) (calls + 1) := rfl

theorem retryLoop_step_success {τ : Type} (service : Nat → TranscriptStep τ)
    (n fuel attempt : Nat) (lastError : Option String) (calls : Nat) (t : τ)
    (h : service attempt = TranscriptStep.success t) :
    retryLoop service n (fuel + 1) attempt lastError calls = (RetryOutcome.ok t, calls + 1) := by
  rw [retryLoop_fuel_succ, h]

theorem retryLoop_step_break {τ : Type} (service : Nat → TranscriptStep τ)
    (n fuel attempt : Nat) (lastError : Option String) (calls : Nat) (e : String)
    (h : service attempt = TranscriptStep.failure e)
    (hbrk : (decide (attempt < n - 1) && !(isRetryableError e)) = true) :
    retryLoop service n (fuel + 1) attempt lastError calls = (RetryOutcome.raised e, calls + 1) := by
  rw [retryLoop_fuel_succ, h]
  simp only [hbrk, if_true]

theorem retryLoop_step_retry {τ : Type} (service : Nat → TranscriptStep τ)
    (n fuel attempt : Nat) (lastError : Option String) (calls : Nat) (e : String)
    (h : service attempt = TranscriptStep.failure e)
    (hcont : (decide (attempt < n - 1) && !(isRetryableError e)) = false) :
    retryLoop service n (fuel + 1) attempt lastError calls =
      retryLoop service n fuel (attempt + 1) (some e) (calls + 1) := by
  rw [retryLoop_fuel_succ, h]
  simp [hcont]

theorem determineQuality_failed_iff (cfg : VoiceProcessingConfig) (c : ℚ)
    (text : String) (d : ℚ) :
    determineQuality cfg c text d = VoiceQuality.failed ↔ text = "" ∨ c = 0 := by
  unfold determineQuality
  by_cases h : text = "" ∨ c = 0
  · simp [h]
  · rw [if_neg h]
    split_ifs <;> simp [h]

theorem determineQuality_low_iff (cfg : VoiceProcessingConfig) (c : ℚ)
    (text : String) (d : ℚ) (ht : text ≠ "") (hc : c ≠ 0) :
    determineQuality cfg c text d = VoiceQuality.low ↔
      c < cfg.confidenceThreshold ∨ (10 < d ∧ wordCount text < 3) := by
  unfold determineQuality
  rw [if_neg (by simp [ht, hc])]
  by_cases h1 : c < cfg.confidenceThreshold
  · simp [h1]
  · rw [if_neg h1]
    by_cases h2 : 10 < d ∧ wordCount text < 3
    · simp [h1, h2]
    · rw [if_neg h2]
      split_ifs <;> simp [h1, h2]

theorem determineQuality_high_iff (cfg : VoiceProcessingConfig) (c : ℚ)
    (text : String) (d : ℚ) (ht : text ≠ "") (hc : c ≠ 0)
    (hnl : ¬(c < cfg.confidenceThreshold ∨ (10 < d ∧ wordCount text < 3))) :
    determineQuality cfg c text d = VoiceQuality.high ↔
      85/100 ≤ c ∧ 3 ≤ wordCount text := by
  unfold determineQuality
  rw [if_neg (by simp [ht, hc]), if_neg (fun h => hnl (Or.inl h)),
      if_neg (fun h => hnl (Or.inr h))]
  split_ifs with h <;> simp [h]

theorem determineQuality_medium (cfg : VoiceProcessingConfig) (c : ℚ)
    (text : String) (d : ℚ) (ht : text ≠ "") (hc : c ≠ 0)
    (hnl : ¬(c < cfg.confidenceThreshold ∨ (10 < d ∧ wordCount text < 3)))
    (hnh : ¬(85/100 ≤ c ∧ 3 ≤ wordCount text)) :
    determineQuality cfg c text d = VoiceQuality.medium := by
  unfold determineQuality
  rw [if_neg (by simp [ht, hc]), if_neg (fun h => hnl (Or.inl h)),
      if_neg (fun h => hnl (Or.inr h)), if_neg hnh]

theorem determineQuality_mono (cfg : VoiceProcessingConfig) (text : String)
    (d : ℚ) (c1 c2 : ℚ) (h0 : 0 ≤ c1) (h12 : c1 ≤ c2)
    (hwc : 3 ≤ wordCount text) (hd : d ≤ 10) :
    qualityRank (determineQuality cfg c1 text d) ≤
      qualityRank (determineQuality cfg c2 text d) := by
  by_cases hc1 : c1 = 0
  · have : determineQuality cfg c1 text d = VoiceQuality.failed :=
      (determineQuality_failed_iff cfg c1 text d).mpr (Or.inr hc1)
    rw [this]
    exact Nat.zero_le _
  · have hc2 : c2 ≠ 0 := fun h => hc1 (le_antisymm (h ▸ h12) h0)
    rw [determineQuality_char cfg c1 text d hwc hc1,
        determineQuality_char cfg c2 text d hwc hc2]
    by_cases h1 : c2 < cfg.confidenceThreshold
    · rw [if_pos (lt_of_le_of_lt h12 h1), if_pos h1]
    · rw [if_neg h1]
      by_cases h2 : c2 < 85/100
      · rw [if_pos h2]
        by_cases h3 : c1 < cfg.confidenceThreshold
        · rw [if_pos h3]
          simp [qualityRank]
        · rw [if_neg h3, if_pos (lt_of_le_of_lt h12 h2)]
      · rw [if_neg h2]
        by_cases h3 : c1 < cfg.confidenceThreshold
        · rw [if_pos h3]
          simp [qualityRank]
        · rw [if_neg h3]
          by_cases h4 : c1 < 85/100
          · rw [if_pos h4]
            simp [qualityRank]
          · rw [if_neg h4]

/-! ## Claim theorems -/

/-- Claim C2: for confidence in [0,1] the classifier returns FAILED iff the
text is empty or confidence is exactly 0; otherwise LOW iff the confidence is
under the configured threshold or (duration > 10 and word count < 3); once the
LOW checks are excluded, HIGH iff confidence ≥ 0.85 with word count ≥ 3, and
MEDIUM otherwise; and for fixed word count ≥ 3 and duration ≤ 10 the tier is
monotonically non-decreasing in the confidence. -/
theorem C2_quality_classification (cfg : VoiceProcessingConfig) (c : ℚ)
    (text : String) (d : ℚ) (hc0 : 0 ≤ c) (hc1 : c ≤ 1) :
    (determineQuality cfg c text d = VoiceQuality.failed ↔ text = "" ∨ c = 0)
    ∧ (text ≠ "" → c ≠ 0 →
        (determineQuality cfg c text d = VoiceQuality.low ↔
            c < cfg.confidenceThreshold ∨ (10 < d ∧ wordCount text < 3))
        ∧ (¬(c < cfg.confidenceThreshold ∨ (10 < d ∧ wordCount text < 3)) →
            (determineQuality cfg c text d = VoiceQuality.high ↔
              85/100 ≤ c ∧ 3 ≤ wordCount text))
        ∧ (¬(c < cfg.confidenceThreshold ∨ (10 < d ∧ wordCount text < 3)) →
            ¬(85/100 ≤ c ∧ 3 ≤ wordCount text) →
            determineQuality cfg c text d = VoiceQuality.medium))
    ∧ (∀ c1 c2 : ℚ, 0 ≤ c1 → c1 ≤ c2 → c2 ≤ 1 → 3 ≤ wordCount text → d ≤ 10 →
        qualityRank (determineQuality cfg c1 text d) ≤
          qualityRank (determineQuality cfg c2 text d)) :=
  ⟨determineQuality_failed_iff cfg c text d,
   fun ht hc =>
     ⟨determineQuality_low_iff cfg c text d ht hc,
      fun hnl => determineQuality_high_iff cfg c text d ht hc hnl,
      fun hnl hnh => determineQuality_medium cfg c text d ht hc hnl hnh⟩,
   fun c1 c2 h0 h12 _ hwc hd => determineQuality_mono cfg text d c1 c2 h0 h12 hwc hd⟩

theorem C2_quality_classification_witness :
    (0:ℚ) ≤ 9/10 ∧ (9/10:ℚ) ≤ 1
    ∧ ((determineQuality defaultConfig (9/10) "hello there world" 5 = VoiceQuality.failed ↔
          "hello there world" = "" ∨ (9/10:ℚ) = 0)
       ∧ ("hello there world" ≠ "" → (9/10:ℚ) ≠ 0 →
           (determineQuality defaultConfig (9/10) "hello there world" 5 = VoiceQuality.low ↔
               (9/10:ℚ) < defaultConfig.confidenceThreshold
                 ∨ ((10:ℚ) < 5 ∧ wordCount "hello there world" < 3))
           ∧ (¬((9/10:ℚ) < defaultConfig.confidenceThreshold
                 ∨ ((10:ℚ) < 5 ∧ wordCount "hello there world" < 3)) →
               (determineQuality defaultConfig (9/10) "hello there world" 5 = VoiceQuality.high ↔
                 (85/100:ℚ) ≤ 9/10 ∧ 3 ≤ wordCount "hello there world"))
           ∧ (¬((9/10:ℚ) < defaultConfig.confidenceThreshold
                 ∨ ((10:ℚ) < 5 ∧ wordCount "hello there world" < 3)) →
               ¬((85/100:ℚ) ≤ 9/10 ∧ 3 ≤ wordCount "hello there world") →
               determineQuality defaultConfig (9/10) "hello there world" 5 = VoiceQuality.medium))
       ∧ (∀ c1 c2 : ℚ, 0 ≤ c1 → c1 ≤ c2 → c2 ≤ 1 →
           3 ≤ wordCount "hello there world" → (5:ℚ) ≤ 10 →
           qualityRank (determineQuality defaultConfig c1 "hello there world" 5) ≤
             qualityRank (determineQuality defaultConfig c2 "hello there world" 5))) :=
  ⟨by norm_num, by norm_num,
   C2_quality_classification defaultConfig (9/10) "hello there world" 5
     (by norm_num) (by norm_num)⟩

/-- Claim C3: with the default attempt budget of 3, a service that fails twice
with retryable (network-classified) errors and then succeeds is invoked exactly
3 times and its transcript is returned; a service that always fails with a
non-retryable (authentication-classified) error is invoked exactly once, the
remaining attempts are not consumed, and that error is surfaced.  Sample
network and authentication messages classify accordingly. -/
theorem C3_retry_behavior (service : Nat → TranscriptStep TranscriptData) :
    defaultConfig.retryAttempts = 3
    ∧ isRetryableError "Network connection failed" = true
    ∧ isRetryableError "Unauthorized: invalid API key" = false
    ∧ (∀ m0 m1 t, service 0 = TranscriptStep.failure m0 →
        service 1 = TranscriptStep.failure m1 →
        service 2 = TranscriptStep.success t →
        isRetryableError m0 = true → isRetryableError m1 = true →
        transcribeWithRetries service defaultConfig.retryAttempts =
          (RetryOutcome.ok t, 3))
    ∧ (∀ m, (∀ i, service i = TranscriptStep.failure m) →
        isRetryableError m = false →
        transcribeWithRetries service defaultConfig.retryAttempts =
          (RetryOutcome.raised m, 1)) := by
  refine ⟨rfl, by decide, by decide, ?_, ?_⟩
  · intro m0 m1 t h0 h1 h2 r0 r1
    show retryLoop service 3 3 0 none 0 = (RetryOutcome.ok t, 3)
    rw [show (3:Nat) = 2 + 1 from rfl,
        retryLoop_step_retry service 3 2 0 none 0 m0 h0 (by simp [r0]),
        show (2:Nat) = 1 + 1 from rfl,
        retryLoop_step_retry service 3 1 1 (some m0) 1 m1 h1 (by simp [r1]),
        retryLoop_step_success service 3 0 2 (some m1) 2 t h2]
  · intro m hall hr
    show retryLoop service 3 3 0 none 0 = (RetryOutcome.raised m, 1)
    rw [show (3:Nat) = 2 + 1 from rfl]
    exact retryLoop_step_break service 3 2 0 none 0 m (hall 0) (by simp [hr])

/-- The mock service of the claim's first part: two network failures followed
by a completed transcript. -/
def mockFlaky : Nat → TranscriptStep TranscriptData :=
  fun i =>
    if i < 2 then TranscriptStep.failure "Network connection failed"
    else TranscriptStep.success ⟨some "hello there world", some (9/10), some "en"⟩

theorem C3_retry_behavior_witness :
    transcribeWithRetries mockFlaky defaultConfig.retryAttempts =
      (RetryOutcome.ok ⟨some "hello there world", some (9/10), some "en"⟩, 3) :=
  (C3_retry_behavior mockFlaky).2.2.2.1 "Network connection failed"
    "Network connection failed" ⟨some "hello there world", some (9/10), some "en"⟩
    rfl rfl rfl (by decide) (by decide)

/-- Claim C8 counterexample: with base delay 2s, attempt index 0, maximum delay
60s and event-loop clock fraction 3/4, the computed wait is 1.95s — strictly
below the exponential term 2s — so it is not expressible as the exponential
term plus a non-negative jitter of at most 10% capped at the maximum delay. -/
theorem C8_backoff_counterexample :
    backoffWait 2 60 0 (3/4) = 39/20
    ∧ ¬ ∃ j : ℚ, 0 ≤ j ∧ j ≤ ((2:ℚ) * 2 ^ 0) / 10
        ∧ backoffWait 2 60 0 (3/4) = min ((2:ℚ) * 2 ^ 0 + j) 60 := by
  have hval : backoffWait 2 60 0 (3/4) = 39/20 := by
    show min ((2:ℚ) * 2 ^ 0 + 2 * 2 ^ 0 * (1/10) * (1/2 - 3/4)) 60 = 39/20
    rw [min_eq_left (by norm_num)]
    norm_num
  refine ⟨hval, ?_⟩
  rintro ⟨j, hj0, hj1, hEq⟩
  rw [hval, min_eq_left (by norm_num at hj1 ⊢; linarith)] at hEq
  norm_num at hj1 hEq
  linarith

/-- Claim C8 amended: the wait before the next attempt is
`min (base + jitter) maxDelay` with `base = base_delay * 2^attempt`, where the
jitter — driven by the event-loop clock fraction — lies between -5% and +5% of
the base (it can be negative), rather than being a non-negative jitter of at
most 10%; the result never exceeds the configured maximum delay. -/
theorem C8_backoff_amended (retryDelaySeconds maxRetryDelay : ℚ) (attempt : Nat)
    (frac : ℚ) (hdel : 0 ≤ retryDelaySeconds) (h0 : 0 ≤ frac) (h1 : frac < 1) :
    ∃ jitter : ℚ,
      backoffWait retryDelaySeconds maxRetryDelay attempt frac =
        min (retryDelaySeconds * 2 ^ attempt + jitter) maxRetryDelay
      ∧ -((retryDelaySeconds * 2 ^ attempt) / 20) ≤ jitter
      ∧ jitter ≤ (retryDelaySeconds * 2 ^ attempt) / 20
      ∧ backoffWait retryDelaySeconds maxRetryDelay attempt frac ≤ maxRetryDelay := by
  have hb : (0:ℚ) ≤ retryDelaySeconds * 2 ^ attempt := by positivity
  refine ⟨retryDelaySeconds * 2 ^ attempt * (1/10) * (1/2 - frac), rfl, ?_, ?_, ?_⟩
  · nlinarith [mul_nonneg hb (by linarith : (0:ℚ) ≤ 1 - frac)]
  · nlinarith [mul_nonneg hb h0]
  · show min (retryDelaySeconds * 2 ^ attempt
        + retryDelaySeconds * 2 ^ attempt * (1/10) * (1/2 - frac)) maxRetryDelay
        ≤ maxRetryDelay
    exact min_le_right _ _

theorem C8_backoff_amended_witness :
    (0:ℚ) ≤ 2 ∧ (0:ℚ) ≤ 0 ∧ (0:ℚ) < 1
    ∧ ∃ jitter : ℚ,
        backoffWait 2 60 1 0 = min ((2:ℚ) * 2 ^ 1 + jitter) 60
        ∧ -(((2:ℚ) * 2 ^ 1) / 20) ≤ jitter ∧ jitter ≤ ((2:ℚ) * 2 ^ 1) / 20
        ∧ backoffWait 2 60 1 0 ≤ 60 :=
  ⟨by norm_num, le_refl 0, by norm_num,
   C8_backoff_amended 2 60 1 0 (by norm_num) (le_refl 0) (by norm_num)⟩

/-- Claim C10: with `retry_attempts = 0` (permitted by the configuration
surface), the loop body never runs, so the service is invoked zero times and
the trailing `raise last_error` re-raises `last_error` while it is still
`None` — the TypeError outcome — rather than returning a transcript or a
service error. -/
theorem C10_zero_attempts (service : Nat → TranscriptStep TranscriptData) :
    transcribeWithRetries service 0 =
      ((RetryOutcome.raisedNone : RetryOutcome TranscriptData), 0) := rfl

/-- Claim C9: for every decodable audio input (at least one channel), the
optimized segment produced by `_optimize_audio` — and hence the normalized
asset returned by `convert_and_optimize` — has exactly channel count 1 and
sample rate 16000, whatever the input channel count and rate. -/
theorem downmix_channels (a : PydubAudioSegment) (h : 1 ≤ a.channels) :
    (if 1 < a.channels then setChannels a 1 else a).channels = 1 := by
  by_cases h1 : 1 < a.channels
  · simp [h1, setChannels]
  · rw [if_neg h1]
    omega

theorem resample_channels (b : PydubAudioSegment) :
    (if b.frameRate ≠ 16000 then setFrameRate b 16000 else b).channels = b.channels := by
  by_cases h : b.frameRate = 16000 <;> simp [h, setFrameRate]

theorem resample_frameRate (b : PydubAudioSegment) :
    (if b.frameRate ≠ 16000 then setFrameRate b 16000 else b).frameRate = 16000 := by
  by_cases h : b.frameRate = 16000 <;> simp [h, setFrameRate]

theorem C9_normalize_mono_16k (a : PydubAudioSegment) (h : 1 ≤ a.channels) :
    (optimizeAudio a).channels = 1 ∧ (optimizeAudio a).frameRate = 16000
    ∧ ∀ out : PydubAudioSegment × ℚ, convertAndOptimize (some a) = Except.ok out →
        out.1.channels = 1 ∧ out.1.frameRate = 16000 := by
  have hch : (optimizeAudio a).channels = 1 := by
    show (if (if 1 < a.channels then setChannels a 1 else a).frameRate ≠ 16000
          then setFrameRate (if 1 < a.channels then setChannels a 1 else a) 16000
          else (if 1 < a.channels then setChannels a 1 else a)).channels = 1
    rw [resample_channels]
    exact downmix_channels a h
  have hfr : (optimizeAudio a).frameRate = 16000 := by
    show (if (if 1 < a.channels then setChannels a 1 else a).frameRate ≠ 16000
          then setFrameRate (if 1 < a.channels then setChannels a 1 else a) 16000
          else (if 1 < a.channels then setChannels a 1 else a)).frameRate = 16000
    exact resample_frameRate _
  refine ⟨hch, hfr, ?_⟩
  intro out hout
  have hfst : out.1 = optimizeAudio a := by
    unfold convertAndOptimize at hout
    injection hout with h'
    rw [← h']
  rw [hfst]
  exact ⟨hch, hfr⟩

theorem C9_normalize_mono_16k_witness :
    1 ≤ (PydubAudioSegment.mk 2 44100 5000).channels
    ∧ ((optimizeAudio (PydubAudioSegment.mk 2 44100 5000)).channels = 1
       ∧ (optimizeAudio (PydubAudioSegment.mk 2 44100 5000)).frameRate = 16000
       ∧ ∀ out : PydubAudioSegment × ℚ,
           convertAndOptimize (some (PydubAudioSegment.mk 2 44100 5000)) = Except.ok out →
           out.1.channels = 1 ∧ out.1.frameRate = 16000) :=
  ⟨by decide, C9_normalize_mono_16k (PydubAudioSegment.mk 2 44100 5000) (by decide)⟩

/-- Claim C5 counterexample: a completed transcript with nonempty text but
confidence exactly 0 yields a pipeline-produced result whose quality is FAILED
while its error field is unset and its text is nonempty — refuting
`quality = failed ↔ (error set ∨ text empty)`. -/
theorem C5_failed_iff_counterexample :
    ProducedResult defaultConfig
      (processTranscriptResult defaultConfig ⟨some "hello there world", some 0, none⟩ 5 1000 "wav" 1)
    ∧ (processTranscriptResult defaultConfig
        ⟨some "hello there world", some 0, none⟩ 5 1000 "wav" 1).quality = VoiceQuality.failed
    ∧ ¬((processTranscriptResult defaultConfig
          ⟨some "hello there world", some 0, none⟩ 5 1000 "wav" 1).error ≠ none
        ∨ (processTranscriptResult defaultConfig
            ⟨some "hello there world", some 0, none⟩ 5 1000 "wav" 1).text = "") := by
  refine ⟨ProducedResult.ofProcess _ _ _ _ _, ?_, ?_⟩
  · simp [processTranscriptResult, determineQuality]
  · simp [processTranscriptResult]

/-- Claim C5 amended: for every result the pipeline produces (success path,
`transcribe_audio` exception path, or orchestrator exception path), the quality
is FAILED iff the error field is set, or the text is empty, or the confidence
is exactly 0 — the extra confidence-zero disjunct is needed because a completed
transcript with nonempty text and zero confidence is classified FAILED with no
error set. -/
theorem C5_failed_iff_amended (cfg : VoiceProcessingConfig)
    (r : VoiceTranscriptionResult) (h : ProducedResult cfg r) :
    r.quality = VoiceQuality.failed ↔
      r.error ≠ none ∨ r.text = "" ∨ r.confidence = 0 := by
  cases h with
  | ofProcess t duration sizeBytes fmt ptime =>
    simp only [processTranscriptResult]
    rw [determineQuality_failed_iff]
    simp
  | ofTranscribeCatch e duration sizeBytes fmt ptime =>
    simp [failedTranscriptionResult]
  | ofOrchestratorCatch e voiceDuration voiceFileSize mime =>
    simp [exceptionResult]

theorem C5_failed_iff_amended_witness :
    (failedTranscriptionResult "network down" 5 1000 "wav" 1).quality = VoiceQuality.failed ↔
      (failedTranscriptionResult "network down" 5 1000 "wav" 1).error ≠ none
      ∨ (failedTranscriptionResult "network down" 5 1000 "wav" 1).text = ""
      ∨ (failedTranscriptionResult "network down" 5 1000 "wav" 1).confidence = 0 :=
  C5_failed_iff_amended defaultConfig _
    (ProducedResult.ofTranscribeCatch "network down" 5 1000 "wav" 1)

/-- Claim C6: validation fails exactly when the file is missing, the size in
MB exceeds the configured max, the duration is below the configured minimum,
or the duration is above the configured maximum — checked in that order with
the first violation determining the error message; a 30MB file against the
default 25MB cap produces an error containing "too large"; and whenever
validation fails, `transcribe_audio` performs zero service invocations. -/
theorem C6_validation_order (cfg : VoiceProcessingConfig) (fileExists : Bool)
    (sizeBytes duration : ℚ) :
    ((∃ e, validateAudioFile cfg fileExists sizeBytes duration = Except.error e) ↔
      (fileExists = false ∨ cfg.maxFileSizeMb < sizeBytes / (1024 * 1024)
        ∨ duration < cfg.minDurationSeconds ∨ cfg.maxDurationSeconds < duration))
    ∧ (fileExists = false →
        validateAudioFile cfg fileExists sizeBytes duration =
          Except.error "Audio file not found")
    ∧ (fileExists = true → cfg.maxFileSizeMb < sizeBytes / (1024 * 1024) →
        ∃ e, validateAudioFile cfg fileExists sizeBytes duration = Except.error e
          ∧ containsSub "too large" e = true)
    ∧ (fileExists = true → ¬(cfg.maxFileSizeMb < sizeBytes / (1024 * 1024)) →
        duration < cfg.minDurationSeconds →
        ∃ e, validateAudioFile cfg fileExists sizeBytes duration = Except.error e
          ∧ containsSub "too short" e = true)
    ∧ (fileExists = true → ¬(cfg.maxFileSizeMb < sizeBytes / (1024 * 1024)) →
        ¬(duration < cfg.minDurationSeconds) → cfg.maxDurationSeconds < duration →
        ∃ e, validateAudioFile cfg fileExists sizeBytes duration = Except.error e
          ∧ containsSub "too long" e = true)
    ∧ (∃ e, validateAudioFile defaultConfig true (30 * 1024 * 1024) 5 = Except.error e
        ∧ containsSub "too large" e = true)
    ∧ (∀ e fmt (service : Nat → TranscriptStep TranscriptData) ptime,
        validateAudioFile cfg fileExists sizeBytes duration = Except.error e →
        (transcribeAudio cfg fileExists sizeBytes duration fmt service ptime).2 = 0) := by
  refine ⟨⟨?_, ?_⟩, ?_, ?_, ?_, ?_, ?_, ?_⟩
  · rintro ⟨e, he⟩
    by_contra hno
    push_neg at hno
    obtain ⟨hfe, hs, hmin, hmax⟩ := hno
    have hfe' : fileExists = true := by cases fileExists <;> simp_all
    rw [hfe'] at he
    unfold validateAudioFile at he
    rw [if_neg (by decide), if_neg (not_lt.mpr hs), if_neg (not_lt.mpr hmin),
        if_neg (not_lt.mpr hmax)] at he
    exact Except.noConfusion he
  · intro h
    by_cases hfe : fileExists = false
    · exact ⟨"Audio file not found", by simp [validateAudioFile, hfe]⟩
    · have hfe' : fileExists = true := by cases fileExists <;> simp_all
      rw [hfe']
      unfold validateAudioFile
      rw [if_neg (by decide)]
      rcases h with h | h | h | h
      · simp_all
      · exact ⟨_, by rw [if_pos h]⟩
      · by_cases hs : cfg.maxFileSizeMb < sizeBytes / (1024 * 1024)
        · exact ⟨_, by rw [if_pos hs]⟩
        · exact ⟨_, by rw [if_neg hs, if_pos h]⟩
      · by_cases hs : cfg.maxFileSizeMb < sizeBytes / (1024 * 1024)
        · exact ⟨_, by rw [if_pos hs]⟩
        · by_cases hmin : duration < cfg.minDurationSeconds
          · exact ⟨_, by rw [if_neg hs, if_pos hmin]⟩
          · exact ⟨_, by rw [if_neg hs, if_neg hmin, if_pos h]⟩
  · intro h
    simp [validateAudioFile, h]
  · intro h1 h2
    rw [h1]
    unfold validateAudioFile
    rw [if_neg (by decide), if_pos h2]
    refine ⟨_, rfl, ?_⟩
    repeat apply containsSub_append
    decide
  · intro h1 h2 h3
    rw [h1]
    unfold validateAudioFile
    rw [if_neg (by decide), if_neg h2, if_pos h3]
    refine ⟨_, rfl, ?_⟩
    repeat apply containsSub_append
    decide
  · intro h1 h2 h3 h4
    rw [h1]
    unfold validateAudioFile
    rw [if_neg (by decide), if_neg h2, if_neg h3, if_pos h4]
    refine ⟨_, rfl, ?_⟩
    repeat apply containsSub_append
    decide
  · unfold validateAudioFile
    rw [if_neg (by decide), if_pos (by norm_num [defaultConfig])]
    refine ⟨_, rfl, ?_⟩
    repeat apply containsSub_append
    decide
  · intro e fmt service ptime h
    simp [transcribeAudio, h]

theorem C6_validation_order_witness :
    ((∃ e, validateAudioFile defaultConfig false 0 1 = Except.error e) ↔
      ((false = false) ∨ defaultConfig.maxFileSizeMb < 0 / (1024 * 1024)
        ∨ (1:ℚ) < defaultConfig.minDurationSeconds
        ∨ defaultConfig.maxDurationSeconds < 1))
    ∧ validateAudioFile defaultConfig false 0 1 = Except.error "Audio file not found" :=
  ⟨(C6_validation_order defaultConfig false 0 1).1,
   (C6_validation_order defaultConfig false 0 1).2.1 rfl⟩

/-- Claim C7 counterexample: on transcript "hello" with target word "hello" and
one native service match, the native path's per-occurrence dictionary has keys
text/start/end/confidence/count while the fallback's has
text/start_char/end_char/confidence/count/match_index — the two paths do not
produce the same result shape. -/
theorem C7_shape_counterexample :
    ((searchWordsInTranscript [⟨"hello", 0, 5, 1, 1⟩] ["hello"]).map
        (fun p => (p.1, p.2.map (fun e => e.map Prod.fst))))
      ≠ ((basicWordSearch "hello" ["hello"]).map
        (fun p => (p.1, p.2.map (fun e => e.map Prod.fst)))) := by decide

/-- Claim C7 amended: both search paths key their result by exactly the queried
words, and each per-occurrence dictionary carries the matched text, a
confidence and the total count; but the paths do not share one shape — the
native path's entries have key list [text, start, end, confidence, count]
while the fallback's have
[text, start_char, end_char, confidence, count, match_index] (different offset
field names plus an extra index field), so a caller reading offsets must
distinguish which path ran. -/
theorem C7_shape_amended (serviceMatches : List WordSearchMatch) (text : String)
    (words : List String) :
    ((searchWordsInTranscript serviceMatches words).map Prod.fst = words)
    ∧ ((basicWordSearch text words).map Prod.fst = words)
    ∧ (∀ p ∈ searchWordsInTranscript serviceMatches words, ∀ e ∈ p.2,
        e.map Prod.fst = ["text", "start", "end", "confidence", "count"])
    ∧ (∀ p ∈ basicWordSearch text words, ∀ e ∈ p.2,
        e.map Prod.fst =
          ["text", "start_char", "end_char", "confidence", "count", "match_index"]) := by
  refine ⟨?_, ?_, ?_, ?_⟩
  · rw [searchWordsInTranscript, List.map_map]
    exact List.map_id words
  · rw [basicWordSearch, List.map_map]
    exact List.map_id words
  · intro p hp e he
    rw [searchWordsInTranscript, List.mem_map] at hp
    obtain ⟨w, _, rfl⟩ := hp
    simp only [List.mem_map] at he
    obtain ⟨m, _, rfl⟩ := he
    rfl
  · intro p hp e he
    rw [basicWordSearch, List.mem_map] at hp
    obtain ⟨w, _, rfl⟩ := hp
    simp only [List.mem_map] at he
    obtain ⟨m, _, rfl⟩ := he
    rfl

theorem C7_shape_amended_witness :
    ((searchWordsInTranscript [⟨"hello", 0, 5, 1, 1⟩] ["hello"]).map Prod.fst = ["hello"])
    ∧ ((basicWordSearch "hello" ["hello"]).map Prod.fst = ["hello"])
    ∧ ([("text", FieldValue.str "hello"), ("start", FieldValue.num 0),
        ("end", FieldValue.num 5), ("confidence", FieldValue.rat 1),
        ("count", FieldValue.num 1)].map Prod.fst =
          ["text", "start", "end", "confidence", "count"])
    ∧ ([("text", FieldValue.str "hello"), ("start_char", FieldValue.num 0),
        ("end_char", FieldValue.num 5), ("confidence", FieldValue.rat 1),
        ("count", FieldValue.num 1), ("match_index", FieldValue.num 0)].map Prod.fst =
          ["text", "start_char", "end_char", "confidence", "count", "match_index"]) :=
  ⟨(C7_shape_amended [⟨"hello", 0, 5, 1, 1⟩] "hello" ["hello"]).1,
   (C7_shape_amended [⟨"hello", 0, 5, 1, 1⟩] "hello" ["hello"]).2.1,
   (C7_shape_amended [⟨"hello", 0, 5, 1, 1⟩] "hello" ["hello"]).2.2.1
     ("hello", [[("text", FieldValue.str "hello"), ("start", FieldValue.num 0),
       ("end", FieldValue.num 5), ("confidence", FieldValue.rat 1),
       ("count", FieldValue.num 1)]]) (by decide)
     [("text", FieldValue.str "hello"), ("start", FieldValue.num 0),
      ("end", FieldValue.num 5), ("confidence", FieldValue.rat 1),
      ("count", FieldValue.num 1)] (by decide),
   (C7_shape_amended [⟨"hello", 0, 5, 1, 1⟩] "hello" ["hello"]).2.2.2
     ("hello", [[("text", FieldValue.str "hello"), ("start_char", FieldValue.num 0),
       ("end_char", FieldValue.num 5), ("confidence", FieldValue.rat 1),
       ("count", FieldValue.num 1), ("match_index", FieldValue.num 0)]]) (by decide)
     [("text", FieldValue.str "hello"), ("start_char", FieldValue.num 0),
      ("end_char", FieldValue.num 5), ("confidence", FieldValue.rat 1),
      ("count", FieldValue.num 1), ("match_index", FieldValue.num 0)] (by decide)⟩

/-- No file absent from the pre-run disk survives the post-convert cleanup:
the registered temp list covers both the raw and the normalized path. -/
theorem cleanup_covers {p raw wav : String} {disk0 : Disk} (hp : p ∉ disk0) :
    p ∉ cleanupTempFiles (if wav ≠ raw then [raw] ++ [wav] else [raw])
        (addFile wav (addFile raw disk0)) := by
  by_cases hw : wav ≠ raw
  · rw [if_pos hw]
    by_cases h1 : p = raw
    · subst h1
      exact not_mem_cleanup_of_mem_temp _ _ (by simp)
    · by_cases h2 : p = wav
      · subst h2
        exact not_mem_cleanup_of_mem_temp _ _ (by simp)
      · exact not_mem_cleanup_of_not_mem _ _ (by simp [addFile, h1, h2, hp])
  · rw [if_neg hw]
    have hw' : wav = raw := not_not.mp hw
    subst hw'
    by_cases h1 : p = wav
    · subst h1
      exact not_mem_cleanup_of_mem_temp _ _ (by simp)
    · exact not_mem_cleanup_of_not_mem _ _ (by simp [addFile, h1, hp])

/-- A scenario whose download raises midway, leaving a partial file on disk. -/
def scenarioKeep : Scenario :=
  { userId := 7
    mime := "audio/ogg"
    voiceDuration := 5
    voiceFileSize := 1000
    download := DownloadOutcome.failKeep "connection reset during download"
    convert := ConvertOutcome.fail "unreachable"
    service := fun _ => TranscriptStep.failure "unreachable"
    processingTime := 1 }

/-- Claim C1 counterexample: when the download raises after writing a partial
file, that path was never registered in the run's `temp_files` list (the append
happens only after the download call returns), so after
`process_voice_message` returns the partial file is still present on disk. -/
theorem C1_cleanup_counterexample :
    (processVoiceMessage defaultConfig scenarioKeep [] {}).2.1 = ["voice_7_h.ogg"] := by
  rfl

/-- Claim C1 amended: for every pipeline run in which a failing download does
not leave a partially written file (success runs, clean download failures, and
failures at the convert, validation or transcription stages), every path absent
from the disk before the run — in particular every temp file the run creates —
is absent from the disk after `process_voice_message` returns; a partial file
left by a mid-write download failure is removed only by the periodic
stale-file sweep, not by the run's own cleanup. -/
theorem C1_cleanup_amended (cfg : VoiceProcessingConfig) (s : Scenario)
    (disk0 : Disk) (st0 : Stats)
    (hnp : ∀ e, s.download ≠ DownloadOutcome.failKeep e)
    (p : String) (hp : p ∉ disk0) :
    p ∉ (processVoiceMessage cfg s disk0 st0).2.1 := by
  unfold processVoiceMessage
  cases hd : s.download with
  | failKeep e => exact absurd hd (hnp e)
  | failClean e =>
    simpa using hp
  | ok =>
    unfold afterDownload
    cases hc : s.convert with
    | fail e =>
      simp only
      by_cases h1 : p = rawPath s
      · subst h1
        exact not_mem_cleanup_of_mem_temp _ _ (by simp)
      · exact not_mem_cleanup_of_not_mem _ _ (by simp [addFile, h1, hp])
    | ok meta =>
      simp only
      exact cleanup_covers hp

/-- A fully successful run: clean download, successful conversion, and a
service that completes on the first attempt. -/
def scenarioOk : Scenario :=
  { userId := 7
    mime := "audio/ogg"
    voiceDuration := 5
    voiceFileSize := 1000
    download := DownloadOutcome.ok
    convert := ConvertOutcome.ok ⟨5, 1000⟩
    service := fun _ => TranscriptStep.success ⟨some "hello there world", some (9/10), some "en"⟩
    processingTime := 1 }

theorem C1_cleanup_amended_witness :
    (∀ e, scenarioOk.download ≠ DownloadOutcome.failKeep e)
    ∧ "voice_7_h.ogg" ∉ ([] : Disk)
    ∧ "voice_7_h.ogg" ∉ (processVoiceMessage defaultConfig scenarioOk [] {}).2.1 :=
  ⟨fun _ h => DownloadOutcome.noConfusion h, by simp,
   C1_cleanup_amended defaultConfig scenarioOk [] {}
     (fun _ h => DownloadOutcome.noConfusion h) "voice_7_h.ogg" (by simp)⟩

/-- Claim C4: whenever an exception is raised at any stage — download,
conversion, validation, or transcription — `process_voice_message` does not
propagate it: it returns a FAILED-quality result whose error field carries the
causal message, increments the failed-transcription counter by exactly one,
and still removes the registered temp files from disk. -/
theorem C4_no_raise (cfg : VoiceProcessingConfig) (s : Scenario) (disk0 : Disk)
    (st0 : Stats) :
    (∀ e, (s.download = DownloadOutcome.failClean e ∨ s.download = DownloadOutcome.failKeep e) →
      (processVoiceMessage cfg s disk0 st0).1.quality = VoiceQuality.failed
      ∧ (processVoiceMessage cfg s disk0 st0).1.error = some e
      ∧ (processVoiceMessage cfg s disk0 st0).2.2.failedTranscriptions =
          st0.failedTranscriptions + 1)
    ∧ (∀ e, s.download = DownloadOutcome.ok → s.convert = ConvertOutcome.fail e →
      (processVoiceMessage cfg s disk0 st0).1.quality = VoiceQuality.failed
      ∧ (processVoiceMessage cfg s disk0 st0).1.error = some e
      ∧ (processVoiceMessage cfg s disk0 st0).2.2.failedTranscriptions =
          st0.failedTranscriptions + 1
      ∧ rawPath s ∉ (processVoiceMessage cfg s disk0 st0).2.1)
    ∧ (∀ meta e, s.download = DownloadOutcome.ok → s.convert = ConvertOutcome.ok meta →
      validateAudioFile cfg true meta.sizeBytes meta.duration = Except.error e →
      (processVoiceMessage cfg s disk0 st0).1.quality = VoiceQuality.failed
      ∧ (processVoiceMessage cfg s disk0 st0).1.error =
          some (categorizeError e ++ ": " ++ e)
      ∧ (processVoiceMessage cfg s disk0 st0).2.2.failedTranscriptions =
          st0.failedTranscriptions + 1
      ∧ rawPath s ∉ (processVoiceMessage cfg s disk0 st0).2.1
      ∧ wavPath s ∉ (processVoiceMessage cfg s disk0 st0).2.1)
    ∧ (∀ meta e n, s.download = DownloadOutcome.ok → s.convert = ConvertOutcome.ok meta →
      validateAudioFile cfg true meta.sizeBytes meta.duration = Except.ok () →
      transcribeWithRetries s.service cfg.retryAttempts =
        ((RetryOutcome.raised e : RetryOutcome TranscriptData), n) →
      (processVoiceMessage cfg s disk0 st0).1.quality = VoiceQuality.failed
      ∧ (processVoiceMessage cfg s disk0 st0).1.error =
          some (categorizeError e ++ ": " ++ e)
      ∧ (processVoiceMessage cfg s disk0 st0).2.2.failedTranscriptions =
          st0.failedTranscriptions + 1
      ∧ rawPath s ∉ (processVoiceMessage cfg s disk0 st0).2.1
      ∧ wavPath s ∉ (processVoiceMessage cfg s disk0 st0).2.1) := by
  have hcont : ∀ d : Disk, wavPath s ∈ addFile (wavPath s) d := by
    intro d
    simp [addFile]
  have hraw_mem : rawPath s ∈
      (if wavPath s ≠ rawPath s then [rawPath s] ++ [wavPath s] else [rawPath s]) := by
    split_ifs <;> simp
  have hwav_mem : wavPath s ∈
      (if wavPath s ≠ rawPath s then [rawPath s] ++ [wavPath s] else [rawPath s]) := by
    by_cases h : wavPath s ≠ rawPath s
    · rw [if_pos h]; simp
    · rw [if_neg h]; simp [not_not.mp h]
  refine ⟨?_, ?_, ?_, ?_⟩
  · intro e h
    rcases h with h | h <;>
      refine ⟨?_, ?_, ?_⟩ <;>
        simp [processVoiceMessage, h, exceptionResult]
  · intro e hdl hcv
    refine ⟨?_, ?_, ?_, ?_⟩
    · simp [processVoiceMessage, hdl, afterDownload, hcv, exceptionResult]
    · simp [processVoiceMessage, hdl, afterDownload, hcv, exceptionResult]
    · simp [processVoiceMessage, hdl, afterDownload, hcv]
    · simp only [processVoiceMessage, hdl, afterDownload, hcv]
      exact not_mem_cleanup_of_mem_temp _ _ (by simp)
  · intro meta e hdl hcv hval
    refine ⟨?_, ?_, ?_, ?_, ?_⟩
    · simp [processVoiceMessage, hdl, afterDownload, hcv, hcont, transcribeAudio, hval,
        failedTranscriptionResult]
    · simp [processVoiceMessage, hdl, afterDownload, hcv, hcont, transcribeAudio, hval,
        failedTranscriptionResult]
    · simp [processVoiceMessage, hdl, afterDownload, hcv, hcont, transcribeAudio, hval,
        recordResult, failedTranscriptionResult]
    · simp only [processVoiceMessage, hdl, afterDownload, hcv]
      exact not_mem_cleanup_of_mem_temp _ _ hraw_mem
    · simp only [processVoiceMessage, hdl, afterDownload, hcv]
      exact not_mem_cleanup_of_mem_temp _ _ hwav_mem
  · intro meta e n hdl hcv hval hret
    refine ⟨?_, ?_, ?_, ?_, ?_⟩
    · simp [processVoiceMessage, hdl, afterDownload, hcv, hcont, transcribeAudio, hval,
        hret, failedTranscriptionResult]
    · simp [processVoiceMessage, hdl, afterDownload, hcv, hcont, transcribeAudio, hval,
        hret, failedTranscriptionResult]
    · simp [processVoiceMessage, hdl, afterDownload, hcv, hcont, transcribeAudio, hval,
        hret, recordResult, failedTranscriptionResult]
    · simp only [processVoiceMessage, hdl, afterDownload, hcv]
      exact not_mem_cleanup_of_mem_temp _ _ hraw_mem
    · simp only [processVoiceMessage, hdl, afterDownload, hcv]
      exact not_mem_cleanup_of_mem_temp _ _ hwav_mem

/-- A scenario whose download raises without leaving any file behind. -/
def scenarioClean : Scenario :=
  { scenarioKeep with download := DownloadOutcome.failClean "network unreachable" }

theorem C4_no_raise_witness :
    (processVoiceMessage defaultConfig scenarioClean [] {}).1.quality = VoiceQuality.failed
    ∧ (processVoiceMessage defaultConfig scenarioClean [] {}).1.error =
        some "network unreachable"
    ∧ (processVoiceMessage defaultConfig scenarioClean [] {}).2.2.failedTranscriptions =
        ({} : Stats).failedTranscriptions + 1 :=
  (C4_no_raise defaultConfig scenarioClean [] {}).1 "network unreachable" (Or.inl rfl)
